import Mathlib

/-!
Shallow embedding of `snapper-rollback.py`, a script that rolls a btrfs
root subvolume back to a snapper snapshot.

The script's observable behaviour is modelled as a state transformer over a
`Trace`: a filesystem abstraction (`FS`: which paths exist as directories,
which paths are mount points), the list of mutating calls actually issued
(`Act`), and the log lines emitted (`LogLine`).  External failures (btrfs
errors, rename errors, non-zero shell exits) are injected through an
`Oracle` whose answers may depend on the current filesystem state; a
successful primitive updates the filesystem state deterministically.
Python exceptions are modelled by an `Err` result threaded out of each
function (`none` = normal return), matching the source's try/except
structure constructor by constructor.
-/

/-- Filesystem abstraction: the set of directory paths and of mount points.
`os.path.isdir` and `os.path.ismount` read these lists. -/
structure FS where
  dirs : List String
  mounts : List String
deriving DecidableEq, Repr

def FS.isdir (fs : FS) (p : String) : Bool := decide (p ∈ fs.dirs)

def FS.ismount (fs : FS) (p : String) : Bool := decide (p ∈ fs.mounts)

/-- Python exception classes that the script distinguishes.
`fileNotFound` and `permission` are `OSError` subclasses; `btrfsError` is
`btrfsutil.BtrfsUtilError`; `noOption` is `configparser.NoOptionError`. -/
inductive Err where
  | fileNotFound (msg : String)
  | permission (msg : String)
  | osError (msg : String)
  | btrfsError (msg : String)
  | noOption (key : String)
deriving DecidableEq, Repr

/-- Membership in Python's `OSError` hierarchy (what `except OSError` catches). -/
def Err.isOSError : Err → Bool
  | .fileNotFound _ => true
  | .permission _ => true
  | .osError _ => true
  | .btrfsError _ => false
  | .noOption _ => false

/-- A mutating call issued to the operating system / btrfs library. -/
inductive Act where
  | mkdirp (p : String)
  | system (cmd : String)
  | rename (src dst : String)
  | snapshot (src dst : String)
  | setDefault (p : String)
deriving DecidableEq, Repr

/-- One line emitted through the logger, tagged with its level. -/
inductive LogLine where
  | info (s : String)
  | warning (s : String)
  | error (s : String)
  | fatal (s : String)
deriving DecidableEq, Repr

/-- State of one run: filesystem, mutating calls issued so far, log so far. -/
structure Trace where
  fs : FS
  acts : List Act
  log : List LogLine
deriving DecidableEq, Repr

def Trace.logI (t : Trace) (s : String) : Trace :=
  { t with log := t.log ++ [LogLine.info s] }

def Trace.logW (t : Trace) (s : String) : Trace :=
  { t with log := t.log ++ [LogLine.warning s] }

def Trace.logE (t : Trace) (s : String) : Trace :=
  { t with log := t.log ++ [LogLine.error s] }

def Trace.logF (t : Trace) (s : String) : Trace :=
  { t with log := t.log ++ [LogLine.fatal s] }

/-- Fault-injection oracle for the external world: for each primitive,
given the current filesystem state and the arguments, either an exception
(`some e`) or success (`none`); for shell commands, the exit status. -/
structure Oracle where
  mkdirErr : FS → String → Option Err
  mountRet : FS → String → Int
  umountRet : FS → String → Int
  renameErr : FS → String → String → Option Err
  snapshotErr : FS → String → String → Option Err
  setDefaultErr : FS → String → Option Err

/-- `os.rename src dst`: on success the directory entry moves from `src` to
`dst`; failures are injected by the oracle. The attempted call is recorded. -/
def osRename (O : Oracle) (src dst : String) (t : Trace) : Trace × Option Err :=
  let t1 := { t with acts := t.acts ++ [Act.rename src dst] }
  match O.renameErr t1.fs src dst with
  | some e => (t1, some e)
  | none =>
      ({ t1 with fs := { t1.fs with dirs := t1.fs.dirs.filter (· ≠ src) ++ [dst] } }, none)

/-- `btrfsutil.create_snapshot src dst`: on success a directory appears at
`dst`; failures are injected by the oracle. The attempted call is recorded. -/
def createSnapshot (O : Oracle) (src dst : String) (t : Trace) : Trace × Option Err :=
  let t1 := { t with acts := t.acts ++ [Act.snapshot src dst] }
  match O.snapshotErr t1.fs src dst with
  | some e => (t1, some e)
  | none => ({ t1 with fs := { t1.fs with dirs := t1.fs.dirs ++ [dst] } }, none)

/-- `btrfsutil.set_default_subvolume p`: no modelled filesystem-state change;
failures are injected by the oracle. The attempted call is recorded. -/
def setDefaultSubvolume (O : Oracle) (p : String) (t : Trace) : Trace × Option Err :=
  let t1 := { t with acts := t.acts ++ [Act.setDefault p] }
  match O.setDefaultErr t1.fs p with
  | some e => (t1, some e)
  | none => (t1, none)

/-- The log line of `ensure_dir` in dry-run mode. -/
def mkdirMsg (p : String) : String := "mkdir -p " ++ "'" ++ p ++ "'"

/-- `ensure_dir(dirpath, dry_run)` from the source: create the directory
recursively when absent; in dry-run mode only log the mkdir command.
An `OSError` from `makedirs` is logged fatal and re-raised. -/
def ensure_dir (O : Oracle) (dirpath : String) (dry_run : Bool) (t : Trace) :
    Trace × Option Err :=
  if t.fs.isdir dirpath then (t, none)
  else if dry_run then
    (t.logI (mkdirMsg dirpath), none)
  else
    let t1 := { t with acts := t.acts ++ [Act.mkdirp dirpath] }
    match O.mkdirErr t1.fs dirpath with
    | some e =>
        if e.isOSError then
          (t1.logF ("error creating dir " ++ "'" ++ dirpath ++ "'" ++ ": " ++ reprStr e),
           some e)
        else (t1, some e)
    | none =>
        ({ t1 with fs := { t1.fs with dirs := t1.fs.dirs ++ [dirpath] } }, none)

/-- The shell command built by `mount_subvol_id5` (`source or ""` becomes
the empty string when no device is configured). -/
def mountCmd (source : Option String) (target : String) : String :=
  "mount -o subvolid=5 " ++ source.getD "" ++ " " ++ target

/-- `mount_subvol_id5(target, source, dry_run)` from the source: ensure the
target directory exists, then, when the target is not already a mount
point, run the mount command (dry-run: log it and treat it as successful);
a non-zero exit raises `OSError("unable to mount ...")`. -/
def mount_subvol_id5 (O : Oracle) (target : String) (source : Option String)
    (dry_run : Bool) (t : Trace) : Trace × Option Err :=
  match ensure_dir O target dry_run t with
  | (t1, some e) => (t1, some e)
  | (t1, none) =>
      if t1.fs.ismount target then (t1, none)
      else
        let shellcmd := mountCmd source target
        if dry_run then (t1.logI shellcmd, none)
        else
          let t2 := { t1 with acts := t1.acts ++ [Act.system shellcmd] }
          if O.mountRet t2.fs shellcmd ≠ 0 then
            (t2, some (Err.osError ("unable to mount " ++ target)))
          else
            ({ t2 with fs := { t2.fs with mounts := t2.fs.mounts ++ [target] } }, none)

/-- `unmount_subvol_id5(target, dry_run)` from the source: when the target
is not mounted (and not in dry-run mode) warn and return; otherwise run
`umount` (dry-run: log it and treat it as successful); a non-zero exit
raises `OSError("unable to unmount ...")`. -/
def unmount_subvol_id5 (O : Oracle) (target : String) (dry_run : Bool) (t : Trace) :
    Trace × Option Err :=
  if !t.fs.ismount target && !dry_run then
    (t.logW ("Not mounted: " ++ target), none)
  else
    let shellcmd := "umount " ++ target
    if dry_run then (t.logI shellcmd, none)
    else
      let t1 := { t with acts := t.acts ++ [Act.system shellcmd] }
      if O.umountRet t1.fs target ≠ 0 then
        (t1, some (Err.osError ("unable to unmount " ++ target)))
      else
        ({ t1 with fs := { t1.fs with mounts := t1.fs.mounts.filter (· ≠ target) } }, none)

/-- How Python's f-string renders the `dev` config value inside the
missing-subvolume message: `None` when the key is absent. -/
def devToStr : Option String → String
  | some d => d
  | none => "None"

/-- The fatal message of the `FileNotFoundError` handler in `rollback`. -/
def missingMsg (subvol_main : String) (dev : Option String) : String :=
  "Missing " ++ subvol_main ++ ": Is " ++ devToStr dev ++
    " mounted with the option subvolid=5?"

/-- The success log line of `rollback`. -/
def successMsg (subvol_rollback_src : String) (dry_run : Bool) : String :=
  (if dry_run then "[DRY-RUN MODE] " else "") ++ "Rollback to " ++
    subvol_rollback_src ++ " complete. Reboot to finish"

/-- The two `except` clauses of `rollback`: `FileNotFoundError` is logged
fatal and swallowed; `BtrfsUtilError` is logged as an error and, when
`subvol_main` is no longer a directory, compensated by renaming
`subvol_main_newname` back (only logged as a warning in dry-run mode); the
compensating `os.rename` is not wrapped, so its own failure propagates.
Any other exception propagates uncaught. -/
def rollbackHandler (O : Oracle) (subvol_main subvol_main_newname : String)
    (dev : Option String) (dry_run : Bool) (t : Trace) (e : Err) :
    Trace × Option Err :=
  match e with
  | Err.fileNotFound _ =>
      (t.logF (missingMsg subvol_main dev), none)
  | Err.btrfsError m =>
      let t1 := t.logE m
      if !t1.fs.isdir subvol_main then
        let t2 := t1.logI ("Moving " ++ subvol_main_newname ++ " back to " ++ subvol_main)
        if dry_run then
          (t2.logW ("mv " ++ subvol_main_newname ++ " " ++ subvol_main), none)
        else osRename O subvol_main_newname subvol_main t2
      else (t1, none)
  | e => (t, some e)

/-- `rollback(...)` from the source: rename the main subvolume aside, make
a snapshot of the rollback source at the old main path, optionally set the
default subvolume, log the success line; in dry-run mode each step is only
logged. Exceptions are routed to `rollbackHandler`. -/
def rollback (O : Oracle) (subvol_main subvol_main_newname subvol_rollback_src : String)
    (dev : Option String) (set_default_subvol : Bool) (dry_run : Bool) (t : Trace) :
    Trace × Option Err :=
  if dry_run then
    let t1 := t.logI ("mv " ++ subvol_main ++ " " ++ subvol_main_newname)
    let t2 := t1.logI ("btrfs subvolume snapshot " ++ subvol_rollback_src ++ " " ++ subvol_main)
    let t3 := if set_default_subvol then
        t2.logI ("btrfs subvolume set-default " ++ subvol_main)
      else t2
    (t3.logI (successMsg subvol_rollback_src true), none)
  else
    match osRename O subvol_main subvol_main_newname t with
    | (t1, some e) => rollbackHandler O subvol_main subvol_main_newname dev dry_run t1 e
    | (t1, none) =>
        match createSnapshot O subvol_rollback_src subvol_main t1 with
        | (t2, some e) => rollbackHandler O subvol_main subvol_main_newname dev dry_run t2 e
        | (t2, none) =>
            if set_default_subvol then
              match setDefaultSubvolume O subvol_main t2 with
              | (t3, some e) => rollbackHandler O subvol_main subvol_main_newname dev dry_run t3 e
              | (t3, none) => (t3.logI (successMsg subvol_rollback_src false), none)
            else (t2.logI (successMsg subvol_rollback_src false), none)

/-- One configuration section, already parsed: required string keys and
optional keys are `Option`s (`none` = key absent, raising
`NoOptionError` when fetched without a fallback). The boolean keys stand
for the result of `config.getboolean`. -/
structure SectionData where
  mountpoint : Option String
  subvol_main : Option String
  subvol_snapshots : Option String
  dev : Option String
  set_default_subvol : Option Bool
  unmount_btrfs_root : Option Bool
deriving DecidableEq, Repr

/-- Command-line arguments relevant after parsing. -/
structure Args where
  snap_id : String
  dry_run : Bool
  sectionName : String
deriving DecidableEq, Repr

/-- What the interactive confirmation prompt receives. -/
inductive ConfirmInput where
  | text (s : String)
  | interrupt
deriving DecidableEq, Repr

/-- How the process ends: an explicit `sys.exit`/`exit` with a code, a
normal return from `main` (process exit status 0), or an uncaught
exception (non-zero exit via the interpreter). -/
inductive Outcome where
  | exit (code : Nat)
  | normal
  | uncaught (e : Err)
deriving DecidableEq, Repr

/-- The process exit status each outcome produces. -/
def Outcome.code : Outcome → Nat
  | .exit c => c
  | .normal => 0
  | .uncaught _ => 1

/-- `pathlib`'s `/` on an absolute base and relative components, for
already-normalised inputs. -/
def pjoin (a b : String) : String := a ++ "/" ++ b

/-- The `except PermissionError` clause wrapping mount/rollback/unmount in
`main`: a `PermissionError` is logged fatal and turned into `exit(1)`;
anything else propagates uncaught. -/
def mainCatch (t : Trace) (e : Err) : Trace × Outcome :=
  match e with
  | Err.permission m => (t.logF ("Permission denied: " ++ m), Outcome.exit 1)
  | e => (t, Outcome.uncaught e)

/-- `main()` from the source, after `read_config`: `cfg` is the looked-up
section (`none` when `config.has_section` is false), `confirm` the input
line, `date` the `strftime` timestamp. -/
def mainRun (O : Oracle) (cfg : Option SectionData) (args : Args)
    (confirm : ConfirmInput) (date : String) (t : Trace) : Trace × Outcome :=
  match cfg with
  | none => (t.logF ("Missing config section: " ++ args.sectionName), Outcome.exit 1)
  | some sec =>
      match sec.mountpoint with
      | none => (t, Outcome.uncaught (Err.noOption "mountpoint"))
      | some mp =>
          match sec.subvol_main with
          | none => (t, Outcome.uncaught (Err.noOption "subvol_main"))
          | some sm =>
              match sec.subvol_snapshots with
              | none => (t, Outcome.uncaught (Err.noOption "subvol_snapshots"))
              | some ss =>
                  let subvol_main := pjoin mp sm
                  let subvol_rollback_src :=
                    pjoin (pjoin (pjoin mp ss) args.snap_id) "snapshot"
                  let dev := sec.dev
                  let sd := sec.set_default_subvol.getD true
                  match confirm with
                  | ConfirmInput.interrupt => (t, Outcome.exit 1)
                  | ConfirmInput.text c =>
                      if c ≠ "CONFIRM" then
                        (t.logF "Bad confirmation, exiting...", Outcome.exit 0)
                      else
                        let subvol_main_newname := subvol_main ++ date
                        match mount_subvol_id5 O mp dev args.dry_run t with
                        | (t1, some e) => mainCatch t1 e
                        | (t1, none) =>
                            match rollback O subvol_main subvol_main_newname
                                subvol_rollback_src dev sd args.dry_run t1 with
                            | (t2, some e) => mainCatch t2 e
                            | (t2, none) =>
                                if sec.unmount_btrfs_root.getD false then
                                  match unmount_subvol_id5 O mp args.dry_run t2 with
                                  | (t3, some e) => mainCatch t3 e
                                  | (t3, none) => (t3, Outcome.normal)
                                else (t2, Outcome.normal)

/-- The oracle on which every external call succeeds. -/
def Oracle.allOk (O : Oracle) : Prop :=
  (∀ fs p, O.mkdirErr fs p = none) ∧
  (∀ fs c, O.mountRet fs c = 0) ∧
  (∀ fs p, O.umountRet fs p = 0) ∧
  (∀ fs a b, O.renameErr fs a b = none) ∧
  (∀ fs a b, O.snapshotErr fs a b = none) ∧
  (∀ fs p, O.setDefaultErr fs p = none)

/-- A concrete always-succeeding oracle, for witnesses. -/
def oracleOk : Oracle :=
  ⟨fun _ _ => none, fun _ _ => 0, fun _ _ => 0,
   fun _ _ _ => none, fun _ _ _ => none, fun _ _ => none⟩

theorem oracleOk_allOk : oracleOk.allOk :=
  ⟨fun _ _ => rfl, fun _ _ => rfl, fun _ _ => rfl,
   fun _ _ _ => rfl, fun _ _ _ => rfl, fun _ _ => rfl⟩

/-! ## Derived descriptions of the individual steps -/

/-- The mutating calls a successful non-dry `mount_subvol_id5` issues. -/
def mountActs (fs : FS) (mp : String) (dev : Option String) : List Act :=
  (if fs.isdir mp then [] else [Act.mkdirp mp]) ++
    (if fs.ismount mp then [] else [Act.system (mountCmd dev mp)])

/-- The filesystem after a successful non-dry `mount_subvol_id5`. -/
def mountFS (fs : FS) (mp : String) : FS :=
  let fs1 := if fs.isdir mp then fs else { fs with dirs := fs.dirs ++ [mp] }
  if fs.ismount mp then fs1 else { fs1 with mounts := fs1.mounts ++ [mp] }

/-- The log lines of `mount_subvol_id5` in dry-run mode. -/
def mountDryLog (fs : FS) (mp : String) (dev : Option String) : List LogLine :=
  (if fs.isdir mp then [] else [LogLine.info (mkdirMsg mp)]) ++
    (if fs.ismount mp then [] else [LogLine.info (mountCmd dev mp)])

/-- The filesystem after a successful `os.rename src dst`. -/
def renFS (fs : FS) (src dst : String) : FS :=
  { fs with dirs := fs.dirs.filter (· ≠ src) ++ [dst] }

/-- The filesystem after a successful non-dry `rollback`. -/
def rollbackFS (fs : FS) (subvol_main subvol_main_newname : String) : FS :=
  { fs with dirs := (fs.dirs.filter (· ≠ subvol_main) ++ [subvol_main_newname]) ++ [subvol_main] }

/-- The log lines of `rollback` in dry-run mode. -/
def rollbackDryLog (subvol_main subvol_main_newname subvol_rollback_src : String)
    (set_default_subvol : Bool) : List LogLine :=
  [LogLine.info ("mv " ++ subvol_main ++ " " ++ subvol_main_newname),
   LogLine.info ("btrfs subvolume snapshot " ++ subvol_rollback_src ++ " " ++ subvol_main)] ++
    (if set_default_subvol then
      [LogLine.info ("btrfs subvolume set-default " ++ subvol_main)]
    else []) ++
    [LogLine.info (successMsg subvol_rollback_src true)]

lemma mount_dry_eq (O : Oracle) (mp : String) (dev : Option String) (fs : FS)
    (a : List Act) (l : List LogLine) :
    mount_subvol_id5 O mp dev true ⟨fs, a, l⟩ =
      (⟨fs, a, l ++ mountDryLog fs mp dev⟩, none) := by
  unfold mount_subvol_id5 ensure_dir mountDryLog Trace.logI
  by_cases hd : fs.isdir mp <;> by_cases hm : fs.ismount mp <;>
    simp [hd, hm]

lemma mount_ok_eq (O : Oracle) (hmk : ∀ fs p, O.mkdirErr fs p = none)
    (hmt : ∀ fs c, O.mountRet fs c = 0) (mp : String) (dev : Option String)
    (fs : FS) (a : List Act) (l : List LogLine) :
    mount_subvol_id5 O mp dev false ⟨fs, a, l⟩ =
      (⟨mountFS fs mp, a ++ mountActs fs mp dev, l⟩, none) := by
  unfold mount_subvol_id5 ensure_dir mountFS mountActs
  by_cases hd : fs.isdir mp <;> by_cases hm : fs.ismount mp <;>
    simp_all [hmk, hmt, FS.ismount, FS.isdir]

lemma mountFS_ismount (fs : FS) (mp : String) : (mountFS fs mp).ismount mp = true := by
  unfold mountFS
  by_cases hd : fs.isdir mp <;> by_cases hm : fs.ismount mp <;>
    simp_all [FS.ismount]

lemma mountFS_mounts_of_ismount (fs : FS) (mp : String) (hm : fs.ismount mp = true) :
    mountFS fs mp = if fs.isdir mp then fs else { fs with dirs := fs.dirs ++ [mp] } := by
  unfold mountFS
  simp [hm]

lemma rollback_dry_eq (O : Oracle) (subvol_main subvol_main_newname subvol_rollback_src : String)
    (dev : Option String) (sd : Bool) (fs : FS) (a : List Act) (l : List LogLine) :
    rollback O subvol_main subvol_main_newname subvol_rollback_src dev sd true ⟨fs, a, l⟩ =
      (⟨fs, a, l ++ rollbackDryLog subvol_main subvol_main_newname subvol_rollback_src sd⟩,
       none) := by
  unfold rollback rollbackDryLog Trace.logI
  cases sd <;> simp

lemma rollback_ok_eq (O : Oracle) (hrn : ∀ fs a b, O.renameErr fs a b = none)
    (hsn : ∀ fs a b, O.snapshotErr fs a b = none)
    (hsd : ∀ fs p, O.setDefaultErr fs p = none)
    (subvol_main subvol_main_newname subvol_rollback_src : String)
    (dev : Option String) (sd : Bool) (fs : FS) (a : List Act) (l : List LogLine) :
    rollback O subvol_main subvol_main_newname subvol_rollback_src dev sd false ⟨fs, a, l⟩ =
      (⟨rollbackFS fs subvol_main subvol_main_newname,
        a ++ ([Act.rename subvol_main subvol_main_newname,
               Act.snapshot subvol_rollback_src subvol_main] ++
          (if sd then [Act.setDefault subvol_main] else [])),
        l ++ [LogLine.info (successMsg subvol_rollback_src false)]⟩, none) := by
  unfold rollback osRename createSnapshot setDefaultSubvolume rollbackFS Trace.logI
  cases sd <;> simp [hrn, hsn, hsd]

lemma rollback_fnf_eq (O : Oracle)
    (subvol_main subvol_main_newname subvol_rollback_src m : String)
    (dev : Option String) (sd : Bool) (fs : FS) (a : List Act) (l : List LogLine)
    (hrn : O.renameErr fs subvol_main subvol_main_newname = some (Err.fileNotFound m)) :
    rollback O subvol_main subvol_main_newname subvol_rollback_src dev sd false ⟨fs, a, l⟩ =
      (⟨fs, a ++ [Act.rename subvol_main subvol_main_newname],
        l ++ [LogLine.fatal (missingMsg subvol_main dev)]⟩, none) := by
  unfold rollback osRename rollbackHandler Trace.logF
  simp [hrn]

lemma unmount_dry_eq (O : Oracle) (mp : String) (fs : FS) (a : List Act) (l : List LogLine) :
    unmount_subvol_id5 O mp true ⟨fs, a, l⟩ =
      (⟨fs, a, l ++ [LogLine.info ("umount " ++ mp)]⟩, none) := by
  unfold unmount_subvol_id5 Trace.logI
  simp

lemma unmount_ok_eq (O : Oracle) (mp : String) (fs : FS) (a : List Act) (l : List LogLine)
    (hm : fs.ismount mp = true) (hr : O.umountRet fs mp = 0) :
    unmount_subvol_id5 O mp false ⟨fs, a, l⟩ =
      (⟨{ fs with mounts := fs.mounts.filter (· ≠ mp) },
        a ++ [Act.system ("umount " ++ mp)], l⟩, none) := by
  unfold unmount_subvol_id5
  simp [hm, hr]

/-! ## Composition lemmas for `mainRun` on the confirmed path -/

lemma mainRun_steps_no_unmount (O : Oracle) (mp sm ss : String) (dev : Option String)
    (sdo : Option Bool) (umo : Option Bool) (snapid snm date : String) (dry : Bool)
    (fs : FS) (t1 t2 : Trace)
    (h1 : mount_subvol_id5 O mp dev dry ⟨fs, [], []⟩ = (t1, none))
    (h2 : rollback O (pjoin mp sm) (pjoin mp sm ++ date)
        (pjoin (pjoin (pjoin mp ss) snapid) "snapshot") dev (sdo.getD true) dry t1 =
      (t2, none))
    (humo : umo.getD false = false) :
    mainRun O (some ⟨some mp, some sm, some ss, dev, sdo, umo⟩) ⟨snapid, dry, snm⟩
        (ConfirmInput.text "CONFIRM") date ⟨fs, [], []⟩ = (t2, Outcome.normal) := by
  unfold mainRun
  simp [h1, h2, humo]

lemma mainRun_steps_unmount (O : Oracle) (mp sm ss : String) (dev : Option String)
    (sdo : Option Bool) (umo : Option Bool) (snapid snm date : String) (dry : Bool)
    (fs : FS) (t1 t2 t3 : Trace)
    (h1 : mount_subvol_id5 O mp dev dry ⟨fs, [], []⟩ = (t1, none))
    (h2 : rollback O (pjoin mp sm) (pjoin mp sm ++ date)
        (pjoin (pjoin (pjoin mp ss) snapid) "snapshot") dev (sdo.getD true) dry t1 =
      (t2, none))
    (humo : umo.getD false = true)
    (h3 : unmount_subvol_id5 O mp dry t2 = (t3, none)) :
    mainRun O (some ⟨some mp, some sm, some ss, dev, sdo, umo⟩) ⟨snapid, dry, snm⟩
        (ConfirmInput.text "CONFIRM") date ⟨fs, [], []⟩ = (t3, Outcome.normal) := by
  unfold mainRun
  simp [h1, h2, humo, h3]

/-! ## Claim theorems -/

/-- C5: when the configuration file has no section with the requested name,
the process logs a fatal error naming the section and exits with code 1,
having issued no filesystem-mutating call and left the filesystem state
untouched. -/
theorem missing_section_exit1 (O : Oracle) (args : Args) (confirm : ConfirmInput)
    (date : String) (fs : FS) :
    mainRun O none args confirm date ⟨fs, [], []⟩ =
      (⟨fs, [], [LogLine.fatal ("Missing config section: " ++ args.sectionName)]⟩,
       Outcome.exit 1) := rfl

/-- C6: at the confirmation prompt, any input other than exactly `CONFIRM`
makes the process log a fatal line and exit with code 0 after zero
filesystem mutations, and a keyboard interrupt at the prompt makes it exit
with code 1 after zero filesystem mutations. -/
theorem confirmation_guard (O : Oracle) (mp sm ss : String) (dev : Option String)
    (sdo umo : Option Bool) (snapid snm date : String) (dry : Bool) (fs : FS)
    (c : String) (hc : c ≠ "CONFIRM") :
    mainRun O (some ⟨some mp, some sm, some ss, dev, sdo, umo⟩) ⟨snapid, dry, snm⟩
        (ConfirmInput.text c) date ⟨fs, [], []⟩ =
      (⟨fs, [], [LogLine.fatal "Bad confirmation, exiting..."]⟩, Outcome.exit 0) ∧
    mainRun O (some ⟨some mp, some sm, some ss, dev, sdo, umo⟩) ⟨snapid, dry, snm⟩
        ConfirmInput.interrupt date ⟨fs, [], []⟩ =
      (⟨fs, [], []⟩, Outcome.exit 1) := by
  constructor
  · unfold mainRun
    simp [hc, Trace.logF]
  · rfl

/-- Witness for C6 at concrete inputs: the input `yes` is rejected with
exit code 0 and an interrupt exits with code 1, both without any act. -/
theorem confirmation_guard_witness :
    mainRun oracleOk (some ⟨some "/mnt/btrfs", some "@", some "@snapshots",
        some "/dev/sda2", none, none⟩) ⟨"42", false, "root"⟩
        (ConfirmInput.text "yes") "2024-01-01T00:00"
        ⟨⟨["/mnt/btrfs"], ["/mnt/btrfs"]⟩, [], []⟩ =
      (⟨⟨["/mnt/btrfs"], ["/mnt/btrfs"]⟩, [],
        [LogLine.fatal "Bad confirmation, exiting..."]⟩, Outcome.exit 0) ∧
    mainRun oracleOk (some ⟨some "/mnt/btrfs", some "@", some "@snapshots",
        some "/dev/sda2", none, none⟩) ⟨"42", false, "root"⟩
        ConfirmInput.interrupt "2024-01-01T00:00"
        ⟨⟨["/mnt/btrfs"], ["/mnt/btrfs"]⟩, [], []⟩ =
      (⟨⟨["/mnt/btrfs"], ["/mnt/btrfs"]⟩, [], []⟩, Outcome.exit 1) :=
  confirmation_guard oracleOk "/mnt/btrfs" "@" "@snapshots" (some "/dev/sda2")
    none none "42" "root" "2024-01-01T00:00" false
    ⟨["/mnt/btrfs"], ["/mnt/btrfs"]⟩ "yes" (by decide)

/-- C7: when the target is already a mount point (and hence, by the OS
invariant, a directory), `mount_subvol_id5` issues no mount command, raises
no error, and leaves the whole trace unchanged: a no-op beyond the
directory and mount-state checks, so repeating it changes nothing. -/
theorem ensureMounted_noop (O : Oracle) (target : String) (dev : Option String)
    (dry : Bool) (fs : FS) (a : List Act) (l : List LogLine)
    (hm : fs.ismount target = true) (hd : fs.isdir target = true) :
    mount_subvol_id5 O target dev dry ⟨fs, a, l⟩ = (⟨fs, a, l⟩, none) := by
  unfold mount_subvol_id5 ensure_dir
  simp [hm, hd]

/-- Witness for C7: on a filesystem where `/mnt/btrfs` is a mounted
directory, the mount helper is the identity. -/
theorem ensureMounted_noop_witness :
    mount_subvol_id5 oracleOk "/mnt/btrfs" (some "/dev/sda2") false
        ⟨⟨["/mnt/btrfs"], ["/mnt/btrfs"]⟩, [], []⟩ =
      (⟨⟨["/mnt/btrfs"], ["/mnt/btrfs"]⟩, [], []⟩, none) :=
  ensureMounted_noop oracleOk "/mnt/btrfs" (some "/dev/sda2") false
    ⟨["/mnt/btrfs"], ["/mnt/btrfs"]⟩ [] [] (by decide) (by decide)

/-- C10: in dry-run mode `rollback` raises nothing, issues no mutating
call, and its log contains no warning line and no error line — in
particular neither the compensating-rename warning (`mv new old`) nor the
btrfs error message, so the compensation branch is unreachable. -/
theorem dry_rollback_no_compensation (O : Oracle)
    (subvol_main subvol_main_newname subvol_rollback_src : String)
    (dev : Option String) (sd : Bool) (fs : FS) :
    (rollback O subvol_main subvol_main_newname subvol_rollback_src dev sd true
        ⟨fs, [], []⟩).2 = none ∧
    (rollback O subvol_main subvol_main_newname subvol_rollback_src dev sd true
        ⟨fs, [], []⟩).1.acts = [] ∧
    (∀ s, LogLine.warning s ∉
      (rollback O subvol_main subvol_main_newname subvol_rollback_src dev sd true
        ⟨fs, [], []⟩).1.log) ∧
    (∀ s, LogLine.error s ∉
      (rollback O subvol_main subvol_main_newname subvol_rollback_src dev sd true
        ⟨fs, [], []⟩).1.log) := by
  rw [rollback_dry_eq]
  refine ⟨rfl, rfl, ?_, ?_⟩ <;> intro s <;> cases sd <;> simp [rollbackDryLog]

/-- C2: when the initial rename succeeds and snapshot creation then fails
with a btrfs error, the old main path no longer exists, so the error is
logged and the backup name is renamed back; whatever the compensating
rename itself returns is the result of `rollback` (its failure is not
caught), and when it succeeds the original directory name exists again. -/
theorem snapshot_failure_compensates (O : Oracle)
    (subvol_main subvol_main_newname subvol_rollback_src m : String)
    (dev : Option String) (sd : Bool) (fs : FS)
    (hne : subvol_main ≠ subvol_main_newname)
    (hrn : O.renameErr fs subvol_main subvol_main_newname = none)
    (hsn : O.snapshotErr (renFS fs subvol_main subvol_main_newname)
        subvol_rollback_src subvol_main = some (Err.btrfsError m)) :
    (rollback O subvol_main subvol_main_newname subvol_rollback_src dev sd false
        ⟨fs, [], []⟩).1.acts =
      [Act.rename subvol_main subvol_main_newname,
       Act.snapshot subvol_rollback_src subvol_main,
       Act.rename subvol_main_newname subvol_main] ∧
    (rollback O subvol_main subvol_main_newname subvol_rollback_src dev sd false
        ⟨fs, [], []⟩).1.log =
      [LogLine.error m,
       LogLine.info ("Moving " ++ subvol_main_newname ++ " back to " ++ subvol_main)] ∧
    (rollback O subvol_main subvol_main_newname subvol_rollback_src dev sd false
        ⟨fs, [], []⟩).2 =
      O.renameErr (renFS fs subvol_main subvol_main_newname) subvol_main_newname
        subvol_main ∧
    (O.renameErr (renFS fs subvol_main subvol_main_newname) subvol_main_newname
        subvol_main = none →
      (rollback O subvol_main subvol_main_newname subvol_rollback_src dev sd false
        ⟨fs, [], []⟩).1.fs.isdir subvol_main = true) := by
  have hmiss : (renFS fs subvol_main subvol_main_newname).isdir subvol_main = false := by
    simp [renFS, FS.isdir, hne]
  unfold rollback osRename createSnapshot rollbackHandler
  simp only [renFS] at hrn hsn hmiss
  cases hcomp : O.renameErr
      ⟨fs.dirs.filter (· ≠ subvol_main) ++ [subvol_main_newname], fs.mounts⟩
      subvol_main_newname subvol_main <;>
    simp_all [renFS, osRename, Trace.logE, Trace.logI, FS.isdir, hne]

/-- Witness for C2: a concrete run where the snapshot call fails and the
compensating rename succeeds, restoring `/mnt/btrfs/@`. -/
theorem snapshot_failure_compensates_witness :
    (rollback ({ oracleOk with
        snapshotErr := fun _ _ _ => some (Err.btrfsError "ERROR: boom") })
        "/mnt/btrfs/@" "/mnt/btrfs/@2024" "/mnt/btrfs/@snapshots/42/snapshot"
        (some "/dev/sda2") true false
        ⟨⟨["/mnt/btrfs", "/mnt/btrfs/@"], ["/mnt/btrfs"]⟩, [], []⟩).1.acts =
      [Act.rename "/mnt/btrfs/@" "/mnt/btrfs/@2024",
       Act.snapshot "/mnt/btrfs/@snapshots/42/snapshot" "/mnt/btrfs/@",
       Act.rename "/mnt/btrfs/@2024" "/mnt/btrfs/@"] ∧
    (rollback ({ oracleOk with
        snapshotErr := fun _ _ _ => some (Err.btrfsError "ERROR: boom") })
        "/mnt/btrfs/@" "/mnt/btrfs/@2024" "/mnt/btrfs/@snapshots/42/snapshot"
        (some "/dev/sda2") true false
        ⟨⟨["/mnt/btrfs", "/mnt/btrfs/@"], ["/mnt/btrfs"]⟩, [], []⟩).1.log =
      [LogLine.error "ERROR: boom",
       LogLine.info "Moving /mnt/btrfs/@2024 back to /mnt/btrfs/@"] ∧
    (rollback ({ oracleOk with
        snapshotErr := fun _ _ _ => some (Err.btrfsError "ERROR: boom") })
        "/mnt/btrfs/@" "/mnt/btrfs/@2024" "/mnt/btrfs/@snapshots/42/snapshot"
        (some "/dev/sda2") true false
        ⟨⟨["/mnt/btrfs", "/mnt/btrfs/@"], ["/mnt/btrfs"]⟩, [], []⟩).2 =
      ({ oracleOk with
        snapshotErr := fun _ _ _ => some (Err.btrfsError "ERROR: boom") } :
          Oracle).renameErr
        (renFS ⟨["/mnt/btrfs", "/mnt/btrfs/@"], ["/mnt/btrfs"]⟩ "/mnt/btrfs/@"
          "/mnt/btrfs/@2024") "/mnt/btrfs/@2024" "/mnt/btrfs/@" ∧
    (({ oracleOk with
        snapshotErr := fun _ _ _ => some (Err.btrfsError "ERROR: boom") } :
          Oracle).renameErr
        (renFS ⟨["/mnt/btrfs", "/mnt/btrfs/@"], ["/mnt/btrfs"]⟩ "/mnt/btrfs/@"
          "/mnt/btrfs/@2024") "/mnt/btrfs/@2024" "/mnt/btrfs/@" = none →
      (rollback ({ oracleOk with
          snapshotErr := fun _ _ _ => some (Err.btrfsError "ERROR: boom") })
          "/mnt/btrfs/@" "/mnt/btrfs/@2024" "/mnt/btrfs/@snapshots/42/snapshot"
          (some "/dev/sda2") true false
          ⟨⟨["/mnt/btrfs", "/mnt/btrfs/@"], ["/mnt/btrfs"]⟩, [], []⟩).1.fs.isdir
        "/mnt/btrfs/@" = true) :=
  snapshot_failure_compensates
    ({ oracleOk with snapshotErr := fun _ _ _ => some (Err.btrfsError "ERROR: boom") })
    "/mnt/btrfs/@" "/mnt/btrfs/@2024" "/mnt/btrfs/@snapshots/42/snapshot"
    "ERROR: boom" (some "/dev/sda2") true
    ⟨["/mnt/btrfs", "/mnt/btrfs/@"], ["/mnt/btrfs"]⟩ (by decide) rfl rfl

/-- An oracle whose rename calls always raise `FileNotFoundError`, for
witnesses of the missing-subvolume scenarios. -/
def oracleFnf : Oracle :=
  { oracleOk with renameErr := fun _ _ _ => some (Err.fileNotFound "nf") }

/-- C4: when the initial rename raises `FileNotFoundError` (the main
subvolume is missing), the process logs one fatal message — whose text
contains the configured mountpoint and the configured device — performs no
compensating rename and no further action, leaves the filesystem as the
mount step left it, and `main` returns normally. -/
theorem missing_subvol_fatal (O : Oracle)
    (hmk : ∀ fs p, O.mkdirErr fs p = none) (hmt : ∀ fs c, O.mountRet fs c = 0)
    (mp sm ss snapid snm date d m : String) (sdo : Option Bool) (fs : FS)
    (hrn : O.renameErr (mountFS fs mp) (pjoin mp sm) (pjoin mp sm ++ date) =
      some (Err.fileNotFound m)) :
    mainRun O (some ⟨some mp, some sm, some ss, some d, sdo, none⟩) ⟨snapid, false, snm⟩
        (ConfirmInput.text "CONFIRM") date ⟨fs, [], []⟩ =
      (⟨mountFS fs mp,
        mountActs fs mp (some d) ++ [Act.rename (pjoin mp sm) (pjoin mp sm ++ date)],
        [LogLine.fatal (missingMsg (pjoin mp sm) (some d))]⟩, Outcome.normal) ∧
    (∃ q r, missingMsg (pjoin mp sm) (some d) = q ++ mp ++ r) ∧
    (∃ q r, missingMsg (pjoin mp sm) (some d) = q ++ d ++ r) := by
  refine ⟨?_, ?_, ?_⟩
  · have h1 := mount_ok_eq O hmk hmt mp (some d) fs [] []
    have h2 := rollback_fnf_eq O (pjoin mp sm) (pjoin mp sm ++ date)
      (pjoin (pjoin (pjoin mp ss) snapid) "snapshot") m (some d) (sdo.getD true)
      (mountFS fs mp) ([] ++ mountActs fs mp (some d)) ([] : List LogLine) hrn
    have h := mainRun_steps_no_unmount O mp sm ss (some d) sdo none snapid snm date
      false fs _ _ h1 h2 rfl
    simpa using h
  · exact ⟨"Missing ", "/" ++ sm ++ ": Is " ++ d ++ " mounted with the option subvolid=5?",
      by simp [missingMsg, pjoin, devToStr, String.append_assoc]⟩
  · exact ⟨"Missing " ++ (mp ++ "/" ++ sm) ++ ": Is ", " mounted with the option subvolid=5?",
      by simp [missingMsg, pjoin, devToStr, String.append_assoc]⟩

/-- Witness for C4 at concrete inputs: the rename fails with
`FileNotFoundError` and the run ends with only the fatal log line. -/
theorem missing_subvol_fatal_witness :
    mainRun oracleFnf (some ⟨some "/mnt/btrfs", some "@", some "@snapshots",
        some "/dev/sda2", none, none⟩) ⟨"42", false, "root"⟩
        (ConfirmInput.text "CONFIRM") "2024-01-01T00:00"
        ⟨⟨["/mnt/btrfs"], ["/mnt/btrfs"]⟩, [], []⟩ =
      (⟨mountFS ⟨["/mnt/btrfs"], ["/mnt/btrfs"]⟩ "/mnt/btrfs",
        mountActs ⟨["/mnt/btrfs"], ["/mnt/btrfs"]⟩ "/mnt/btrfs" (some "/dev/sda2") ++
          [Act.rename (pjoin "/mnt/btrfs" "@") (pjoin "/mnt/btrfs" "@" ++ "2024-01-01T00:00")],
        [LogLine.fatal (missingMsg (pjoin "/mnt/btrfs" "@") (some "/dev/sda2"))]⟩,
       Outcome.normal) ∧
    (∃ q r, missingMsg (pjoin "/mnt/btrfs" "@") (some "/dev/sda2") =
      q ++ "/mnt/btrfs" ++ r) ∧
    (∃ q r, missingMsg (pjoin "/mnt/btrfs" "@") (some "/dev/sda2") =
      q ++ "/dev/sda2" ++ r) :=
  missing_subvol_fatal oracleFnf (fun _ _ => rfl) (fun _ _ => rfl)
    "/mnt/btrfs" "@" "@snapshots" "42" "root" "2024-01-01T00:00" "/dev/sda2" "nf"
    none ⟨["/mnt/btrfs"], ["/mnt/btrfs"]⟩ rfl

/-- C1: on the confirmed, non-dry path with a fully successful backend,
the run renames the main subvolume to its name with the timestamp
appended, snapshots `mountpoint/subvol_snapshots/<SNAPID>/snapshot` to the
original main path, issues the set-default call exactly when
`set_default_subvol` (default true) holds, and logs the success line
naming the snapshot source and telling the user to reboot. -/
theorem rollback_happy_path (O : Oracle) (hO : O.allOk)
    (mp sm ss snapid snm date : String) (dev : Option String) (sdo umo : Option Bool)
    (fs : FS) :
    mainRun O (some ⟨some mp, some sm, some ss, dev, sdo, umo⟩) ⟨snapid, false, snm⟩
        (ConfirmInput.text "CONFIRM") date ⟨fs, [], []⟩ =
      (⟨(if umo.getD false then
          { rollbackFS (mountFS fs mp) (pjoin mp sm) (pjoin mp sm ++ date) with
            mounts := (rollbackFS (mountFS fs mp) (pjoin mp sm)
              (pjoin mp sm ++ date)).mounts.filter (· ≠ mp) }
        else rollbackFS (mountFS fs mp) (pjoin mp sm) (pjoin mp sm ++ date)),
        mountActs fs mp dev ++
          ([Act.rename (pjoin mp sm) (pjoin mp sm ++ date),
            Act.snapshot (pjoin (pjoin (pjoin mp ss) snapid) "snapshot") (pjoin mp sm)] ++
            (if sdo.getD true then [Act.setDefault (pjoin mp sm)] else [])) ++
          (if umo.getD false then [Act.system ("umount " ++ mp)] else []),
        [LogLine.info (successMsg (pjoin (pjoin (pjoin mp ss) snapid) "snapshot") false)]⟩,
       Outcome.normal) := by
  obtain ⟨hmk, hmt, hum, hrn, hsn, hsd⟩ := hO
  have h1 := mount_ok_eq O hmk hmt mp dev fs [] []
  have h2 := rollback_ok_eq O hrn hsn hsd (pjoin mp sm) (pjoin mp sm ++ date)
    (pjoin (pjoin (pjoin mp ss) snapid) "snapshot") dev (sdo.getD true)
    (mountFS fs mp) ([] ++ mountActs fs mp dev) ([] : List LogLine)
  by_cases humo : umo.getD false
  · have hmnt : (rollbackFS (mountFS fs mp) (pjoin mp sm)
        (pjoin mp sm ++ date)).ismount mp = true := by
      have : (rollbackFS (mountFS fs mp) (pjoin mp sm)
          (pjoin mp sm ++ date)).ismount mp = (mountFS fs mp).ismount mp := rfl
      rw [this]
      exact mountFS_ismount fs mp
    have h3 := unmount_ok_eq O mp
      (rollbackFS (mountFS fs mp) (pjoin mp sm) (pjoin mp sm ++ date))
      (([] ++ mountActs fs mp dev) ++
        ([Act.rename (pjoin mp sm) (pjoin mp sm ++ date),
          Act.snapshot (pjoin (pjoin (pjoin mp ss) snapid) "snapshot") (pjoin mp sm)] ++
          (if sdo.getD true then [Act.setDefault (pjoin mp sm)] else [])))
      (([] : List LogLine) ++
        [LogLine.info (successMsg (pjoin (pjoin (pjoin mp ss) snapid) "snapshot") false)])
      hmnt (hum _ _)
    have h := mainRun_steps_unmount O mp sm ss dev sdo umo snapid snm date false fs
      _ _ _ h1 h2 humo h3
    rw [h]
    simp [humo]
  · have humo' : umo.getD false = false := by simpa using humo
    have h := mainRun_steps_no_unmount O mp sm ss dev sdo umo snapid snm date false fs
      _ _ h1 h2 humo'
    rw [h]
    simp [humo']

/-- Witness for C1: a concrete confirmed run on an always-succeeding
backend ends normally with exactly the rename, snapshot and set-default
calls and the success log line. -/
theorem rollback_happy_path_witness :
    mainRun oracleOk (some ⟨some "/mnt/btrfs", some "@", some "@snapshots",
        some "/dev/sda2", none, none⟩) ⟨"42", false, "root"⟩
        (ConfirmInput.text "CONFIRM") "2024-01-01T00:00"
        ⟨⟨["/mnt/btrfs", "/mnt/btrfs/@"], ["/mnt/btrfs"]⟩, [], []⟩ =
      (⟨(if (none : Option Bool).getD false then
          { rollbackFS (mountFS ⟨["/mnt/btrfs", "/mnt/btrfs/@"], ["/mnt/btrfs"]⟩
              "/mnt/btrfs") (pjoin "/mnt/btrfs" "@")
              (pjoin "/mnt/btrfs" "@" ++ "2024-01-01T00:00") with
            mounts := (rollbackFS (mountFS ⟨["/mnt/btrfs", "/mnt/btrfs/@"], ["/mnt/btrfs"]⟩
              "/mnt/btrfs") (pjoin "/mnt/btrfs" "@")
              (pjoin "/mnt/btrfs" "@" ++ "2024-01-01T00:00")).mounts.filter
                (· ≠ "/mnt/btrfs") }
        else rollbackFS (mountFS ⟨["/mnt/btrfs", "/mnt/btrfs/@"], ["/mnt/btrfs"]⟩
          "/mnt/btrfs") (pjoin "/mnt/btrfs" "@")
          (pjoin "/mnt/btrfs" "@" ++ "2024-01-01T00:00")),
        mountActs ⟨["/mnt/btrfs", "/mnt/btrfs/@"], ["/mnt/btrfs"]⟩ "/mnt/btrfs"
            (some "/dev/sda2") ++
          ([Act.rename (pjoin "/mnt/btrfs" "@")
              (pjoin "/mnt/btrfs" "@" ++ "2024-01-01T00:00"),
            Act.snapshot (pjoin (pjoin (pjoin "/mnt/btrfs" "@snapshots") "42") "snapshot")
              (pjoin "/mnt/btrfs" "@")] ++
            (if (none : Option Bool).getD true then
              [Act.setDefault (pjoin "/mnt/btrfs" "@")]
            else [])) ++
          (if (none : Option Bool).getD false then
            [Act.system ("umount " ++ "/mnt/btrfs")]
          else []),
        [LogLine.info (successMsg
          (pjoin (pjoin (pjoin "/mnt/btrfs" "@snapshots") "42") "snapshot") false)]⟩,
       Outcome.normal) :=
  rollback_happy_path oracleOk oracleOk_allOk "/mnt/btrfs" "@" "@snapshots" "42"
    "root" "2024-01-01T00:00" (some "/dev/sda2") none none
    ⟨["/mnt/btrfs", "/mnt/btrfs/@"], ["/mnt/btrfs"]⟩

/-- C3: a dry-run invocation issues no mutating call at all and leaves the
filesystem state exactly as it was, whatever the confirmation input; and
on the completed (confirmed) path its log consists of exactly one line per
action that a real run would perform: the conditional mkdir and mount
commands, the rename, the snapshot, the conditional set-default, the
dry-run success line, and the conditional umount command. -/
theorem dry_run_frame (O : Oracle) (mp sm ss snapid snm date : String)
    (dev : Option String) (sdo umo : Option Bool) (fs : FS) (confirm : ConfirmInput) :
    (mainRun O (some ⟨some mp, some sm, some ss, dev, sdo, umo⟩) ⟨snapid, true, snm⟩
        confirm date ⟨fs, [], []⟩).1.fs = fs ∧
    (mainRun O (some ⟨some mp, some sm, some ss, dev, sdo, umo⟩) ⟨snapid, true, snm⟩
        confirm date ⟨fs, [], []⟩).1.acts = [] ∧
    (confirm = ConfirmInput.text "CONFIRM" →
      (mainRun O (some ⟨some mp, some sm, some ss, dev, sdo, umo⟩) ⟨snapid, true, snm⟩
          confirm date ⟨fs, [], []⟩).1.log =
        mountDryLog fs mp dev ++
          rollbackDryLog (pjoin mp sm) (pjoin mp sm ++ date)
            (pjoin (pjoin (pjoin mp ss) snapid) "snapshot") (sdo.getD true) ++
          (if umo.getD false then [LogLine.info ("umount " ++ mp)] else [])) := by
  have key : ∀ humo : Bool, umo.getD false = humo →
      mainRun O (some ⟨some mp, some sm, some ss, dev, sdo, umo⟩) ⟨snapid, true, snm⟩
          (ConfirmInput.text "CONFIRM") date ⟨fs, [], []⟩ =
        (⟨fs, [],
          mountDryLog fs mp dev ++
            rollbackDryLog (pjoin mp sm) (pjoin mp sm ++ date)
              (pjoin (pjoin (pjoin mp ss) snapid) "snapshot") (sdo.getD true) ++
            (if umo.getD false then [LogLine.info ("umount " ++ mp)] else [])⟩,
         Outcome.normal) := by
    intro humo hu
    have h1 := mount_dry_eq O mp dev fs [] []
    have h2 := rollback_dry_eq O (pjoin mp sm) (pjoin mp sm ++ date)
      (pjoin (pjoin (pjoin mp ss) snapid) "snapshot") dev (sdo.getD true) fs []
      ([] ++ mountDryLog fs mp dev)
    cases humo
    · have h := mainRun_steps_no_unmount O mp sm ss dev sdo umo snapid snm date true fs
        _ _ h1 h2 hu
      rw [h]
      simp [hu]
    · have h3 := unmount_dry_eq O mp fs []
        (([] ++ mountDryLog fs mp dev) ++
          rollbackDryLog (pjoin mp sm) (pjoin mp sm ++ date)
            (pjoin (pjoin (pjoin mp ss) snapid) "snapshot") (sdo.getD true))
      have h := mainRun_steps_unmount O mp sm ss dev sdo umo snapid snm date true fs
        _ _ _ h1 h2 hu h3
      rw [h]
      simp [hu]
  cases confirm with
  | interrupt => exact ⟨rfl, rfl, by intro h; cases h⟩
  | text c =>
      by_cases hc : c = "CONFIRM"
      · subst hc
        rw [key (umo.getD false) rfl]
        exact ⟨rfl, rfl, fun _ => rfl⟩
      · have h : mainRun O (some ⟨some mp, some sm, some ss, dev, sdo, umo⟩)
            ⟨snapid, true, snm⟩ (ConfirmInput.text c) date ⟨fs, [], []⟩ =
            (⟨fs, [], [LogLine.fatal "Bad confirmation, exiting..."]⟩, Outcome.exit 0) := by
          unfold mainRun
          simp [hc, Trace.logF]
        rw [h]
        refine ⟨rfl, rfl, ?_⟩
        intro hceq
        cases hceq
        exact absurd rfl hc

/-- Witness for C3: a concrete dry run on an unmounted filesystem keeps
the state, issues no act, and logs exactly the would-be commands. -/
theorem dry_run_frame_witness :
    (mainRun oracleOk (some ⟨some "/mnt/btrfs", some "@", some "@snapshots",
        some "/dev/sda2", none, some true⟩) ⟨"42", true, "root"⟩
        (ConfirmInput.text "CONFIRM") "2024-01-01T00:00"
        ⟨⟨["/mnt/btrfs", "/mnt/btrfs/@"], []⟩, [], []⟩).1.fs =
      ⟨["/mnt/btrfs", "/mnt/btrfs/@"], []⟩ ∧
    (mainRun oracleOk (some ⟨some "/mnt/btrfs", some "@", some "@snapshots",
        some "/dev/sda2", none, some true⟩) ⟨"42", true, "root"⟩
        (ConfirmInput.text "CONFIRM") "2024-01-01T00:00"
        ⟨⟨["/mnt/btrfs", "/mnt/btrfs/@"], []⟩, [], []⟩).1.acts = [] ∧
    (ConfirmInput.text "CONFIRM" = ConfirmInput.text "CONFIRM" →
      (mainRun oracleOk (some ⟨some "/mnt/btrfs", some "@", some "@snapshots",
          some "/dev/sda2", none, some true⟩) ⟨"42", true, "root"⟩
          (ConfirmInput.text "CONFIRM") "2024-01-01T00:00"
          ⟨⟨["/mnt/btrfs", "/mnt/btrfs/@"], []⟩, [], []⟩).1.log =
        mountDryLog ⟨["/mnt/btrfs", "/mnt/btrfs/@"], []⟩ "/mnt/btrfs" (some "/dev/sda2") ++
          rollbackDryLog (pjoin "/mnt/btrfs" "@")
            (pjoin "/mnt/btrfs" "@" ++ "2024-01-01T00:00")
            (pjoin (pjoin (pjoin "/mnt/btrfs" "@snapshots") "42") "snapshot")
            ((none : Option Bool).getD true) ++
          (if (some true : Option Bool).getD false then
            [LogLine.info ("umount " ++ "/mnt/btrfs")]
          else [])) :=
  dry_run_frame oracleOk "/mnt/btrfs" "@" "@snapshots" "42" "root" "2024-01-01T00:00"
    (some "/dev/sda2") none (some true) ⟨["/mnt/btrfs", "/mnt/btrfs/@"], []⟩
    (ConfirmInput.text "CONFIRM")

/-- C9: when the main subvolume is missing at rollback time
(`FileNotFoundError` from the rename), the error is only logged: the run
continues, still performs the unmount step when `unmount_btrfs_root` is
true, and the process ends normally with exit status 0. -/
theorem missing_subvol_continues (O : Oracle)
    (hmk : ∀ fs p, O.mkdirErr fs p = none) (hmt : ∀ fs c, O.mountRet fs c = 0)
    (mp sm ss snapid snm date m : String) (dev : Option String) (sdo : Option Bool)
    (fs : FS)
    (hrn : O.renameErr (mountFS fs mp) (pjoin mp sm) (pjoin mp sm ++ date) =
      some (Err.fileNotFound m))
    (hum : O.umountRet (mountFS fs mp) mp = 0) :
    mainRun O (some ⟨some mp, some sm, some ss, dev, sdo, some true⟩)
        ⟨snapid, false, snm⟩ (ConfirmInput.text "CONFIRM") date ⟨fs, [], []⟩ =
      (⟨{ mountFS fs mp with mounts := (mountFS fs mp).mounts.filter (· ≠ mp) },
        mountActs fs mp dev ++
          [Act.rename (pjoin mp sm) (pjoin mp sm ++ date),
           Act.system ("umount " ++ mp)],
        [LogLine.fatal (missingMsg (pjoin mp sm) dev)]⟩, Outcome.normal) ∧
    (mainRun O (some ⟨some mp, some sm, some ss, dev, sdo, some true⟩)
        ⟨snapid, false, snm⟩ (ConfirmInput.text "CONFIRM") date ⟨fs, [], []⟩).2.code = 0 := by
  have h1 := mount_ok_eq O hmk hmt mp dev fs [] []
  have h2 := rollback_fnf_eq O (pjoin mp sm) (pjoin mp sm ++ date)
    (pjoin (pjoin (pjoin mp ss) snapid) "snapshot") m dev (sdo.getD true)
    (mountFS fs mp) ([] ++ mountActs fs mp dev) ([] : List LogLine) hrn
  have h3 := unmount_ok_eq O mp (mountFS fs mp)
    (([] ++ mountActs fs mp dev) ++ [Act.rename (pjoin mp sm) (pjoin mp sm ++ date)])
    (([] : List LogLine) ++ [LogLine.fatal (missingMsg (pjoin mp sm) dev)])
    (mountFS_ismount fs mp) hum
  have h := mainRun_steps_unmount O mp sm ss dev sdo (some true) snapid snm date
    false fs _ _ _ h1 h2 rfl h3
  have hmain : mainRun O (some ⟨some mp, some sm, some ss, dev, sdo, some true⟩)
      ⟨snapid, false, snm⟩ (ConfirmInput.text "CONFIRM") date ⟨fs, [], []⟩ =
      (⟨{ mountFS fs mp with mounts := (mountFS fs mp).mounts.filter (· ≠ mp) },
        mountActs fs mp dev ++
          [Act.rename (pjoin mp sm) (pjoin mp sm ++ date),
           Act.system ("umount " ++ mp)],
        [LogLine.fatal (missingMsg (pjoin mp sm) dev)]⟩, Outcome.normal) := by
    rw [h]
    simp
  exact ⟨hmain, by rw [hmain]; rfl⟩

/-- Witness for C9: a concrete run with a missing main subvolume logs the
fatal line, unmounts, and ends with exit status 0. -/
theorem missing_subvol_continues_witness :
    mainRun oracleFnf (some ⟨some "/mnt/btrfs", some "@", some "@snapshots",
        some "/dev/sda2", none, some true⟩) ⟨"42", false, "root"⟩
        (ConfirmInput.text "CONFIRM") "2024-01-01T00:00"
        ⟨⟨["/mnt/btrfs"], ["/mnt/btrfs"]⟩, [], []⟩ =
      (⟨{ mountFS ⟨["/mnt/btrfs"], ["/mnt/btrfs"]⟩ "/mnt/btrfs" with
          mounts := (mountFS ⟨["/mnt/btrfs"], ["/mnt/btrfs"]⟩
            "/mnt/btrfs").mounts.filter (· ≠ "/mnt/btrfs") },
        mountActs ⟨["/mnt/btrfs"], ["/mnt/btrfs"]⟩ "/mnt/btrfs" (some "/dev/sda2") ++
          [Act.rename (pjoin "/mnt/btrfs" "@")
            (pjoin "/mnt/btrfs" "@" ++ "2024-01-01T00:00"),
           Act.system ("umount " ++ "/mnt/btrfs")],
        [LogLine.fatal (missingMsg (pjoin "/mnt/btrfs" "@") (some "/dev/sda2"))]⟩,
       Outcome.normal) ∧
    (mainRun oracleFnf (some ⟨some "/mnt/btrfs", some "@", some "@snapshots",
        some "/dev/sda2", none, some true⟩) ⟨"42", false, "root"⟩
        (ConfirmInput.text "CONFIRM") "2024-01-01T00:00"
        ⟨⟨["/mnt/btrfs"], ["/mnt/btrfs"]⟩, [], []⟩).2.code = 0 :=
  missing_subvol_continues oracleFnf (fun _ _ => rfl) (fun _ _ => rfl)
    "/mnt/btrfs" "@" "@snapshots" "42" "root" "2024-01-01T00:00" "nf"
    (some "/dev/sda2") none ⟨["/mnt/btrfs"], ["/mnt/btrfs"]⟩ rfl rfl

/-- Counterexample to C8 as stated: a concrete run reaches the interactive
confirmation prompt — it is interrupted there, the only way this run can
end with `exit 1` — while the configured mountpoint has never been ensured
mounted: no mutating call was issued, the filesystem is untouched, and the
mountpoint is not a mount point either before or after. The mount step is
at line 194 of the source, after the prompt at lines 180-189. -/
theorem mount_before_prompt_cex :
    mainRun oracleOk (some ⟨some "/mnt/btrfs", some "@", some "@snapshots",
        some "/dev/sda2", none, none⟩) ⟨"42", false, "root"⟩ ConfirmInput.interrupt
        "2024-01-01T00:00" ⟨⟨["/mnt/btrfs"], []⟩, [], []⟩ =
      (⟨⟨["/mnt/btrfs"], []⟩, [], []⟩, Outcome.exit 1) ∧
    FS.ismount ⟨["/mnt/btrfs"], []⟩ "/mnt/btrfs" = false := by
  exact ⟨rfl, by decide⟩

/-- C8 amended: the mount-ensuring step runs after the confirmation
prompt, not before it: a run that aborts at the prompt (wrong text or
interrupt) issues no call at all — in particular no mount — and on the
confirmed path the mount step's calls come first, before the rollback
procedure's calls. -/
theorem confirmation_precedes_mount (O : Oracle) (hO : O.allOk)
    (mp sm ss snapid snm date : String) (dev : Option String) (sdo : Option Bool)
    (fs : FS) (c : String) (hc : c ≠ "CONFIRM") :
    (mainRun O (some ⟨some mp, some sm, some ss, dev, sdo, none⟩) ⟨snapid, false, snm⟩
        (ConfirmInput.text c) date ⟨fs, [], []⟩).1.acts = [] ∧
    (mainRun O (some ⟨some mp, some sm, some ss, dev, sdo, none⟩) ⟨snapid, false, snm⟩
        ConfirmInput.interrupt date ⟨fs, [], []⟩).1.acts = [] ∧
    (mainRun O (some ⟨some mp, some sm, some ss, dev, sdo, none⟩) ⟨snapid, false, snm⟩
        (ConfirmInput.text "CONFIRM") date ⟨fs, [], []⟩).1.acts =
      mountActs fs mp dev ++
        ([Act.rename (pjoin mp sm) (pjoin mp sm ++ date),
          Act.snapshot (pjoin (pjoin (pjoin mp ss) snapid) "snapshot") (pjoin mp sm)] ++
          (if sdo.getD true then [Act.setDefault (pjoin mp sm)] else [])) := by
  obtain ⟨hmk, hmt, hum, hrn, hsn, hsd⟩ := hO
  refine ⟨?_, rfl, ?_⟩
  · have h : mainRun O (some ⟨some mp, some sm, some ss, dev, sdo, none⟩)
        ⟨snapid, false, snm⟩ (ConfirmInput.text c) date ⟨fs, [], []⟩ =
        (⟨fs, [], [LogLine.fatal "Bad confirmation, exiting..."]⟩, Outcome.exit 0) := by
      unfold mainRun
      simp [hc, Trace.logF]
    rw [h]
  · have h1 := mount_ok_eq O hmk hmt mp dev fs [] []
    have h2 := rollback_ok_eq O hrn hsn hsd (pjoin mp sm) (pjoin mp sm ++ date)
      (pjoin (pjoin (pjoin mp ss) snapid) "snapshot") dev (sdo.getD true)
      (mountFS fs mp) ([] ++ mountActs fs mp dev) ([] : List LogLine)
    have h := mainRun_steps_no_unmount O mp sm ss dev sdo none snapid snm date
      false fs _ _ h1 h2 rfl
    rw [h]
    simp

/-- Witness for the amended C8: concretely, an aborted prompt issues no
call, and a confirmed run's call list starts with the mount command. -/
theorem confirmation_precedes_mount_witness :
    (mainRun oracleOk (some ⟨some "/mnt/btrfs", some "@", some "@snapshots",
        some "/dev/sda2", none, none⟩) ⟨"42", false, "root"⟩
        (ConfirmInput.text "no") "2024-01-01T00:00"
        ⟨⟨["/mnt/btrfs"], []⟩, [], []⟩).1.acts = [] ∧
    (mainRun oracleOk (some ⟨some "/mnt/btrfs", some "@", some "@snapshots",
        some "/dev/sda2", none, none⟩) ⟨"42", false, "root"⟩
        ConfirmInput.interrupt "2024-01-01T00:00"
        ⟨⟨["/mnt/btrfs"], []⟩, [], []⟩).1.acts = [] ∧
    (mainRun oracleOk (some ⟨some "/mnt/btrfs", some "@", some "@snapshots",
        some "/dev/sda2", none, none⟩) ⟨"42", false, "root"⟩
        (ConfirmInput.text "CONFIRM") "2024-01-01T00:00"
        ⟨⟨["/mnt/btrfs"], []⟩, [], []⟩).1.acts =
      mountActs ⟨["/mnt/btrfs"], []⟩ "/mnt/btrfs" (some "/dev/sda2") ++
        ([Act.rename (pjoin "/mnt/btrfs" "@")
            (pjoin "/mnt/btrfs" "@" ++ "2024-01-01T00:00"),
          Act.snapshot (pjoin (pjoin (pjoin "/mnt/btrfs" "@snapshots") "42") "snapshot")
            (pjoin "/mnt/btrfs" "@")] ++
          (if (none : Option Bool).getD true then
            [Act.setDefault (pjoin "/mnt/btrfs" "@")]
          else [])) :=
  confirmation_precedes_mount oracleOk oracleOk_allOk "/mnt/btrfs" "@" "@snapshots"
    "42" "root" "2024-01-01T00:00" (some "/dev/sda2") none ⟨["/mnt/btrfs"], []⟩
    "no" (by decide)
